import Mathlib

/-!
Shallow embedding of the Confluence content-service adapter
(legacy Data Center client and typed client variant).

Pure request construction, response reshaping and error classification are
modelled as Lean functions; each HTTP round trip is abstracted as an
`Except HttpFailure α` outcome fed to the function that handles it.
JavaScript string truthiness (the `x || d` idiom and optional chaining)
is modelled explicitly by `jsOr` and `jsIncludesOpt`.
-/

/-- JavaScript `v || d` for an optional string `v`: the empty string is
falsy, so both a missing value and the empty string yield the default. -/
def jsOr (v : Option String) (d : String) : String :=
  match v with
  | some s => if s = "" then d else s
  | none => d

/-- Occurrence of `pat` in `s` as a list-of-characters scan:
true iff some suffix of `s` starts with `pat`. -/
def strContainsAux (pat : List Char) : List Char → Bool
  | [] => pat.isEmpty
  | c :: rest => pat.isPrefixOf (c :: rest) || strContainsAux pat rest

/-- JavaScript `s.includes(pat)`: substring occurrence test. -/
def strContains (s pat : String) : Bool :=
  strContainsAux pat.data s.data

/-- JavaScript `v?.includes(pat)` coerced to a boolean: a missing string is
falsy, so the whole test is false when `v` is absent. -/
def jsIncludesOpt (v : Option String) (pat : String) : Bool :=
  match v with
  | some s => strContains s pat
  | none => false

/-- A query-string parameter value: the adapter only sends strings and
numbers. -/
inductive ParamVal where
  | str (s : String)
  | num (n : Nat)
deriving DecidableEq, Repr

/-- Storage-format body fragment submitted on create and update
(`{value, representation}`). -/
structure StorageValue where
  value : String
  representation : String
deriving DecidableEq, Repr

/-- The `body` field of a submitted page document (`{storage: {...}}`). -/
structure SubmittedBodyField where
  storage : StorageValue
deriving DecidableEq, Repr

/-- The `version` field of a submitted page document. -/
structure SubmittedVersion where
  number : Nat
  message : String
deriving DecidableEq, Repr

/-- JSON document the legacy client PUTs to `/content/:id` on update:
exactly the fields `type`, `title`, `body`, `version`. -/
structure LegacyUpdateBody where
  type : String
  title : String
  body : SubmittedBodyField
  version : SubmittedVersion
deriving DecidableEq, Repr

/-- One `{prefix, name}` entry of the label array the legacy client POSTs.
The JSON field named after the label namespace is called `labelPrefix`
here because its JSON name is not a legal Lean identifier in this file. -/
structure LabelEntry where
  labelPrefix : String
  name : String
deriving DecidableEq, Repr

/-- JSON document the typed client POSTs to `/pages` on create. -/
structure TypedCreateBody where
  spaceId : String
  status : String
  title : String
  body : SubmittedBodyField
  parentId : Option String
deriving DecidableEq, Repr

/-- JSON document the typed client PUTs to `/pages/:id` on update. -/
structure TypedUpdateBody where
  id : String
  status : String
  title : String
  body : SubmittedBodyField
  version : SubmittedVersion
deriving DecidableEq, Repr

/-- Request bodies the two clients can submit. -/
inductive ReqBody where
  | empty
  | legacyCreate (type : String) (title : String) (spaceKey : String)
      (body : SubmittedBodyField) (ancestors : Option String)
  | legacyUpdate (b : LegacyUpdateBody)
  | labelArray (ls : List LabelEntry)
  | labelSingle (name : String)
  | typedCreate (b : TypedCreateBody)
  | typedUpdate (b : TypedUpdateBody)
deriving DecidableEq, Repr

/-- One HTTP request as the shared axios instance receives it: method,
path relative to the configured base, query parameters, JSON body. -/
structure Request where
  method : String
  path : String
  params : List (String × ParamVal)
  body : ReqBody
deriving DecidableEq, Repr

/-- A failed HTTP round trip. `axiosErr` carries the optional response
status (`error.response?.status`), the optional `message` field of the
response payload (`error.response?.data?.message`) and the transport
message; `otherErr` is a non-axios (programming) error. -/
inductive HttpFailure where
  | axiosErr (status : Option Nat) (dataMessage : Option String) (message : String)
  | otherErr (message : String)
deriving DecidableEq, Repr

/-- The flat domain error taxonomy of the adapter. -/
inductive ErrorCode where
  | PAGE_NOT_FOUND
  | INSUFFICIENT_PERMISSIONS
  | EMPTY_CONTENT
  | LABEL_EXISTS
  | LABEL_NOT_FOUND
  | SEARCH_FAILED
  | UNKNOWN
deriving DecidableEq, Repr

/-- A raised `ConfluenceError`: human-readable message plus error kind. -/
structure ConfluenceError where
  message : String
  code : ErrorCode
deriving DecidableEq, Repr

/-- What an adapter operation can throw: a classified domain error, or a
non-axios error rethrown unchanged. -/
inductive Thrown where
  | confluence (e : ConfluenceError)
  | raw (f : HttpFailure)
deriving DecidableEq, Repr

/-! Raw upstream response shapes (fields the adapter actually reads;
everything reached through `?.` is an `Option`). -/

/-- Raw `body.storage` of a fetched page (`value` may be absent). -/
structure RawStorage where
  value : Option String
deriving DecidableEq, Repr

/-- Raw `body` of a fetched page. -/
structure RawBody where
  storage : Option RawStorage
deriving DecidableEq, Repr

/-- Raw `space` reference embedded in a fetched page. -/
structure RawSpaceRef where
  id : String
deriving DecidableEq, Repr

/-- Raw `version` object of a fetched page or search row. -/
structure RawVersion where
  number : Option Nat
  when : Option String
deriving DecidableEq, Repr

/-- Raw `history.createdBy` of a fetched page. -/
structure RawCreatedBy where
  accountId : Option String
deriving DecidableEq, Repr

/-- Raw `history` of a fetched page. -/
structure RawHistory where
  createdBy : Option RawCreatedBy
  createdDate : Option String
deriving DecidableEq, Repr

/-- Raw `_links` object; the adapter only reads `webui` and `next`. -/
structure RawLinks where
  webui : Option String
  next : Option String
deriving DecidableEq, Repr

/-- Raw page document as the legacy API returns it (the fields the
adapter reads when reshaping). -/
structure RawPageData where
  id : String
  title : String
  status : String
  space : Option RawSpaceRef
  links : Option RawLinks
  version : Option RawVersion
  body : Option RawBody
  history : Option RawHistory
deriving DecidableEq, Repr

/-- Raw search result row (`/content/search` with `body.view` expansion). -/
structure RawSearchRow where
  id : String
  type : String
  status : String
  title : String
  space : Option RawSpaceRef
  links : Option RawLinks
  version : Option RawVersion
  excerpt : Option String
deriving DecidableEq, Repr

/-- Raw paginated search response (`results` may be absent). -/
structure RawSearchResponse where
  results : Option (List RawSearchRow)
  links : Option RawLinks
deriving DecidableEq, Repr

/-- Raw paginated content response for page listing. -/
structure RawPagesResponse where
  results : List RawPageData
  links : Option RawLinks
  size : Nat
deriving DecidableEq, Repr

/-! ### Legacy Data Center client (`/rest/api`, `/content/...`) -/

namespace Legacy

/-- Base URL the legacy client is constructed with. -/
def baseURL (domain : String) : String :=
  "https://" ++ domain

/-- API path appended to the base URL. -/
def apiPath : String :=
  "/rest/api"

/-- The single low-cost read `verifyApiConnection` issues:
GET `/space` with `limit = 1`. -/
def verifyApiConnectionRequests : List Request :=
  [⟨"GET", "/space", [("limit", .num 1)], .empty⟩]

/-- Error message `verifyApiConnection` classifies from a failed probe,
in the order the source tests the status
(401, 403, 404, then any status at least 500; everything else, including
an axios error without a response and a non-axios error, keeps the
generic message). -/
def verifyErrorMessage (f : HttpFailure) : String :=
  match f with
  | .axiosErr status _ _ =>
    match status with
    | some s =>
      if s = 401 then "Authentication failed: Invalid API token or email"
      else if s = 403 then "Authorization failed: Insufficient permissions"
      else if s = 404 then "API endpoint not found: Check Confluence domain"
      else if 500 ≤ s then "Confluence server error: API may be temporarily unavailable"
      else "Failed to connect to Confluence API"
    | none => "Failed to connect to Confluence API"
  | .otherErr _ => "Failed to connect to Confluence API"

/-- `verifyApiConnection`: succeeds silently, or raises a single fatal
error carrying the classified message. -/
def verifyApiConnection (outcome : Except HttpFailure Unit) : Except String Unit :=
  match outcome with
  | .ok _ => .ok ()
  | .error f => .error (verifyErrorMessage f)

/-- The reshaped `Page` record the legacy client returns. Operations that
do not include a `body` field leave it `none`. -/
structure Page where
  id : String
  title : String
  status : String
  spaceId : Option String
  links : Option RawLinks
  version : Option RawVersion
  body : Option RawBody
  authorId : String
  createdAt : String
deriving DecidableEq, Repr

/-- Reshaped paginated response of pages. -/
structure PaginatedPages where
  results : List Page
  links : Option RawLinks
  size : Nat
deriving DecidableEq, Repr

/-- Clause array `getConfluencePages` builds: space and type clauses,
plus a title clause pushed when the `title` argument is truthy (present
and non-empty). -/
def getConfluencePagesClauses (spaceKey : String) (title : Option String) : List String :=
  let cql := ["space = \"" ++ spaceKey ++ "\"", "type = \"page\""]
  match title with
  | some t => if t = "" then cql else cql ++ ["title ~ \"" ++ t ++ "\""]
  | none => cql

/-- Structured query `getConfluencePages` transmits: the clause array
joined with AND. -/
def getConfluencePagesCql (spaceKey : String) (title : Option String) : String :=
  String.intercalate " AND " (getConfluencePagesClauses spaceKey title)

/-- Request `getConfluencePages` issues: the structured query against the
legacy search endpoint with space, version and storage-body expansion. -/
def getConfluencePagesRequest (spaceKey : String) (limit start : Nat)
    (title : Option String) : Request :=
  ⟨"GET", "/content/search",
    [("cql", .str (getConfluencePagesCql spaceKey title)),
     ("limit", .num limit), ("start", .num start),
     ("expand", .str "space,version,body.storage")], .empty⟩

/-- Row reshaping in `getConfluencePages`: fills `authorId` from
`history?.createdBy?.accountId` with fallback `unknown`, and `createdAt`
from `history?.createdDate` with the current timestamp as fallback. -/
def pagesRowToPage (now : String) (p : RawPageData) : Page :=
  { id := p.id, title := p.title, status := p.status,
    spaceId := p.space.map RawSpaceRef.id,
    links := p.links, version := p.version, body := p.body,
    authorId := jsOr ((p.history.bind RawHistory.createdBy).bind RawCreatedBy.accountId) "unknown",
    createdAt := jsOr (p.history.bind RawHistory.createdDate) now }

/-- Response reshaping in `getConfluencePages`. -/
def getConfluencePagesResponse (now : String) (r : RawPagesResponse) : PaginatedPages :=
  { results := r.results.map (pagesRowToPage now),
    links := r.links, size := r.size }

/-- Row reshaping in `searchPageByName` (no body field is produced). -/
def searchPageByNameRowToPage (now : String) (p : RawPageData) : Page :=
  { id := p.id, title := p.title, status := p.status,
    spaceId := p.space.map RawSpaceRef.id,
    links := p.links, version := p.version, body := none,
    authorId := jsOr ((p.history.bind RawHistory.createdBy).bind RawCreatedBy.accountId) "unknown",
    createdAt := jsOr (p.history.bind RawHistory.createdDate) now }

/-- `getPageContent`: on success, reads `body?.storage?.value` and raises
`EMPTY_CONTENT` when it is missing or empty (JS falsy); an axios failure
is classified 404 and 403 first, anything else is `UNKNOWN`; a non-axios
failure is rethrown unchanged. -/
def getPageContent (outcome : Except HttpFailure RawPageData) : Except Thrown String :=
  match outcome with
  | .ok page =>
    let content := (page.body.bind RawBody.storage).bind RawStorage.value
    match content with
    | some c =>
      if c = "" then
        .error (.confluence ⟨"Page content is empty or not accessible", .EMPTY_CONTENT⟩)
      else
        .ok c
    | none =>
      .error (.confluence ⟨"Page content is empty or not accessible", .EMPTY_CONTENT⟩)
  | .error f =>
    match f with
    | .axiosErr status _ msg =>
      if status = some 404 then
        .error (.confluence ⟨"Page content not found", .PAGE_NOT_FOUND⟩)
      else if status = some 403 then
        .error (.confluence ⟨"Insufficient permissions to access page content", .INSUFFICIENT_PERMISSIONS⟩)
      else
        .error (.confluence ⟨"Failed to get page content: " ++ msg, .UNKNOWN⟩)
    | .otherErr _ => .error (.raw f)

/-- Request `getPageContent` issues. -/
def getPageContentRequest (pageId : String) : Request :=
  ⟨"GET", "/content/" ++ pageId, [("expand", .str "body.storage")], .empty⟩

/-- Row reshaping in `getConfluencePage` (includes the body). -/
def getConfluencePageToPage (now : String) (p : RawPageData) : Page :=
  { id := p.id, title := p.title, status := p.status,
    spaceId := p.space.map RawSpaceRef.id,
    links := p.links, version := p.version, body := p.body,
    authorId := jsOr ((p.history.bind RawHistory.createdBy).bind RawCreatedBy.accountId) "unknown",
    createdAt := jsOr (p.history.bind RawHistory.createdDate) now }

/-- Row reshaping in `createConfluencePage` (no body field is produced). -/
def createConfluencePageToPage (now : String) (p : RawPageData) : Page :=
  { id := p.id, title := p.title, status := p.status,
    spaceId := p.space.map RawSpaceRef.id,
    links := p.links, version := p.version, body := none,
    authorId := jsOr ((p.history.bind RawHistory.createdBy).bind RawCreatedBy.accountId) "unknown",
    createdAt := jsOr (p.history.bind RawHistory.createdDate) now }

/-- Document `updateConfluencePage` PUTs: built from the call arguments
only, with `version.number` one above the supplied version and a
timestamped auto-generated revision message. -/
def updateSubmittedBody (title content : String) (version : Nat) (now : String) : LegacyUpdateBody :=
  { type := "page", title := title,
    body := { storage := { value := content, representation := "storage" } },
    version := { number := version + 1,
                 message := "Updated via MCP at " ++ now } }

/-- Requests `updateConfluencePage` issues, in order: it first re-reads
the current page, then PUTs the replacement document. `currentPage` is
the result of that initial read; as in the source, the submitted
document does not reference it. -/
def updateConfluencePageRequests (pageId title content : String) (version : Nat)
    (now : String) (currentPage : RawPageData) : List Request :=
  [⟨"GET", "/content/" ++ pageId, [], .empty⟩,
   ⟨"PUT", "/content/" ++ pageId, [],
     .legacyUpdate (updateSubmittedBody title content version now)⟩]

/-- Row reshaping in `updateConfluencePage` (no body field is produced). -/
def updateConfluencePageToPage (now : String) (p : RawPageData) : Page :=
  { id := p.id, title := p.title, status := p.status,
    spaceId := p.space.map RawSpaceRef.id,
    links := p.links, version := p.version, body := none,
    authorId := jsOr ((p.history.bind RawHistory.createdBy).bind RawCreatedBy.accountId) "unknown",
    createdAt := jsOr (p.history.bind RawHistory.createdDate) now }

end Legacy

namespace Legacy

/-- Structured query `searchConfluenceContent` transmits: the caller
query verbatim when it contains a type filter clause (the source tests
for the substring consisting of the word type, a space and an equals
sign), otherwise wrapped as a free-text match. -/
def searchCql (query : String) : String :=
  if strContains query "type =" then query
  else "text ~ \"" ++ query ++ "\""

/-- Request `searchConfluenceContent` issues. -/
def searchConfluenceContentRequest (query : String) (limit start : Nat) : Request :=
  ⟨"GET", "/content/search",
    [("cql", .str (searchCql query)),
     ("limit", .num limit), ("start", .num start),
     ("expand", .str "space,version,body.view")], .empty⟩

/-- Content summary carried by a reshaped search entry. -/
structure SearchContentSummary where
  id : String
  type : String
  status : String
  title : String
  spaceId : Option String
  links : Option RawLinks
deriving DecidableEq, Repr

/-- One reshaped search entry. -/
structure SearchEntry where
  content : SearchContentSummary
  url : String
  lastModified : Option String
  excerpt : String
deriving DecidableEq, Repr

/-- The `_links` object of a reshaped search result: only a next cursor
and the resolved API base. -/
structure SearchLinks where
  next : Option String
  base : String
deriving DecidableEq, Repr

/-- Reshaped search result. -/
structure SearchResult where
  results : List SearchEntry
  links : SearchLinks
deriving DecidableEq, Repr

/-- Row reshaping in `searchConfluenceContent`: the browsable URL is the
domain with the `/wiki`-prefixed webui link appended, and the excerpt
falls back to the empty string. -/
def searchRowToEntry (domain : String) (r : RawSearchRow) : SearchEntry :=
  { content := { id := r.id, type := r.type, status := r.status, title := r.title,
                 spaceId := r.space.map RawSpaceRef.id, links := r.links },
    url := "https://" ++ domain ++ "/wiki" ++ jsOr (r.links.bind RawLinks.webui) "",
    lastModified := r.version.bind RawVersion.when,
    excerpt := jsOr r.excerpt "" }

/-- Response reshaping in `searchConfluenceContent`: rows (defaulting to
the empty list), a next cursor taken from upstream, and the resolved API
base. No previous cursor is produced. -/
def searchConfluenceContentResponse (domain : String) (r : RawSearchResponse) : SearchResult :=
  { results := (r.results.getD []).map (searchRowToEntry domain),
    links := { next := r.links.bind RawLinks.next,
               base := baseURL domain ++ apiPath } }

/-- `searchConfluenceContent` on a failed round trip: an axios error is
reraised as `SEARCH_FAILED`; anything else is rethrown unchanged. -/
def searchConfluenceContentFailure (f : HttpFailure) : Thrown :=
  match f with
  | .axiosErr _ _ msg => .confluence ⟨"Failed to search content: " ++ msg, .SEARCH_FAILED⟩
  | .otherErr _ => .raw f

/-- Request `addConfluenceLabel` issues: the label POSTed as a one-element
array with the global namespace. -/
def addConfluenceLabelRequest (pageId label : String) : Request :=
  ⟨"POST", "/content/" ++ pageId ++ "/label", [],
    .labelArray [{ labelPrefix := "global", name := label }]⟩

/-- `addConfluenceLabel` failure classification, in source order: 404
first (`PAGE_NOT_FOUND`), then a payload message mentioning that the page
already has the label (`LABEL_EXISTS`), else `UNKNOWN`; a non-axios
failure is rethrown unchanged. -/
def addConfluenceLabelFailure (label : String) (f : HttpFailure) : Thrown :=
  match f with
  | .axiosErr status dataMessage msg =>
    if status = some 404 then
      .confluence ⟨"Page not found", .PAGE_NOT_FOUND⟩
    else if jsIncludesOpt dataMessage "already has the label" then
      .confluence ⟨"Label \"" ++ label ++ "\" already exists on this page", .LABEL_EXISTS⟩
    else
      .confluence ⟨"Failed to add label: " ++ msg, .UNKNOWN⟩
  | .otherErr _ => .raw f

/-- Request `removeConfluenceLabel` issues: DELETE on the label resource
with the label name as a query parameter. -/
def removeConfluenceLabelRequest (pageId label : String) : Request :=
  ⟨"DELETE", "/content/" ++ pageId ++ "/label", [("name", .str label)], .empty⟩

/-- `removeConfluenceLabel`: a 404 is disambiguated by the payload text
(a message mentioning the word label means the label is missing,
otherwise the page is); any other axios failure is `UNKNOWN`; a
non-axios failure is rethrown unchanged. -/
def removeConfluenceLabel (label : String) (outcome : Except HttpFailure Unit) :
    Except Thrown Unit :=
  match outcome with
  | .ok _ => .ok ()
  | .error f =>
    match f with
    | .axiosErr status dataMessage msg =>
      if status = some 404 then
        if jsIncludesOpt dataMessage "label" then
          .error (.confluence ⟨"Label \"" ++ label ++ "\" not found on page", .LABEL_NOT_FOUND⟩)
        else
          .error (.confluence ⟨"Page not found", .PAGE_NOT_FOUND⟩)
      else
        .error (.confluence ⟨"Failed to remove label: " ++ msg, .UNKNOWN⟩)
    | .otherErr _ => .error (.raw f)

end Legacy

/-! ### Typed client variant (`src/confluence-client.ts`) -/

namespace Typed

/-- Base URL the typed client constructs its axios instance with. -/
def baseURL (domain : String) : String :=
  "https://" ++ domain ++ "/rest/api"

/-- Full URL a request resolves to against the typed client base. -/
def fullURL (domain : String) (r : Request) : String :=
  baseURL domain ++ r.path

/-- `getSpaces`. -/
def getSpacesRequest (limit start : Nat) : Request :=
  ⟨"GET", "/spaces", [("limit", .num limit), ("start", .num start)], .empty⟩

/-- `getSpace`. -/
def getSpaceRequest (spaceId : String) : Request :=
  ⟨"GET", "/spaces/" ++ spaceId, [], .empty⟩

/-- `getPages`. -/
def getPagesRequest (spaceId : String) (limit start : Nat) : Request :=
  ⟨"GET", "/pages",
    [("spaceId", .str spaceId), ("limit", .num limit), ("start", .num start),
     ("status", .str "current")], .empty⟩

/-- `getPage`. -/
def getPageRequest (pageId : String) : Request :=
  ⟨"GET", "/pages/" ++ pageId, [], .empty⟩

/-- `getPageContent`: body resource with an explicit format parameter. -/
def getPageContentRequest (pageId : String) : Request :=
  ⟨"GET", "/pages/" ++ pageId ++ "/body", [("body_format", .str "storage")], .empty⟩

/-- `createPage`. -/
def createPageRequest (spaceId title content : String) (parentId : Option String) : Request :=
  ⟨"POST", "/pages", [],
    .typedCreate { spaceId := spaceId, status := "current", title := title,
                   body := { storage := { value := content, representation := "storage" } },
                   parentId := parentId }⟩

/-- `updatePage`. -/
def updatePageRequest (pageId title content : String) (version : Nat) (now : String) : Request :=
  ⟨"PUT", "/pages/" ++ pageId, [],
    .typedUpdate { id := pageId, status := "current", title := title,
                   body := { storage := { value := content, representation := "storage" } },
                   version := { number := version + 1,
                                message := "Updated via MCP at " ++ now } }⟩

/-- `searchContent`: the caller query is transmitted as-is. -/
def searchContentRequest (query : String) (limit start : Nat) : Request :=
  ⟨"GET", "/search",
    [("cql", .str query), ("limit", .num limit), ("start", .num start)], .empty⟩

/-- `getLabels`. -/
def getLabelsRequest (pageId : String) : Request :=
  ⟨"GET", "/pages/" ++ pageId ++ "/labels", [], .empty⟩

/-- `addLabel`: a single name-only object. -/
def addLabelRequest (pageId label : String) : Request :=
  ⟨"POST", "/pages/" ++ pageId ++ "/labels", [], .labelSingle label⟩

/-- `removeLabel`: the label addressed by path segment. -/
def removeLabelRequest (pageId label : String) : Request :=
  ⟨"DELETE", "/pages/" ++ pageId ++ "/labels/" ++ label, [], .empty⟩

end Typed

/-- `jsOr` with the empty default is exactly `Option.getD` with the empty
default: a present empty string and an absent string both give the empty
string. -/
theorem jsOr_empty_default (v : Option String) : jsOr v "" = v.getD "" := by
  cases v with
  | none => rfl
  | some s =>
    by_cases h : s = ""
    · simp [jsOr, h]
    · simp [jsOr, h]

/-! ### Claims -/

/-- C1, counterexample. The claim says `updatePage` merges unspecified
fields of the re-read page metadata into the submitted document. Two
re-read results that differ in every metadata field (id, title, status,
space, links, version, body, history) produce identical request
sequences, so no field of the re-read metadata reaches the submitted
document: the replacement body is built from the call arguments alone. -/
theorem C1_no_merge_counterexample :
    Legacy.updateConfluencePageRequests "123" "New title" "<p>new</p>" 4
      "2024-05-01T00:00:00Z"
      ⟨"123", "Old title", "current", some ⟨"S1"⟩, some ⟨some "/x", none⟩,
        some ⟨some 4, some "2023-01-01"⟩, some ⟨some ⟨some "<p>old</p>"⟩⟩,
        some ⟨some ⟨some "alice"⟩, some "2020-01-01"⟩⟩
      = Legacy.updateConfluencePageRequests "123" "New title" "<p>new</p>" 4
        "2024-05-01T00:00:00Z"
        ⟨"999", "Other", "draft", none, none, none, none, none⟩
    ∧ (⟨"123", "Old title", "current", some ⟨"S1"⟩, some ⟨some "/x", none⟩,
        some ⟨some 4, some "2023-01-01"⟩, some ⟨some ⟨some "<p>old</p>"⟩⟩,
        some ⟨some ⟨some "alice"⟩, some "2020-01-01"⟩⟩ : RawPageData)
      ≠ ⟨"999", "Other", "draft", none, none, none, none, none⟩ :=
  ⟨rfl, by decide⟩

/-- C1, amended: `updateConfluencePage` first re-reads the current page
and then submits a replacement document that is built solely from the
call arguments (independent of the re-read result), with
`version.number = expectedVersion + 1` and the auto-generated timestamped
revision message. -/
theorem C1_updatePage_replacement (pageId title content : String) (version : Nat)
    (now : String) (p q : RawPageData) :
    Legacy.updateConfluencePageRequests pageId title content version now p =
      [⟨"GET", "/content/" ++ pageId, [], .empty⟩,
       ⟨"PUT", "/content/" ++ pageId, [],
         .legacyUpdate (Legacy.updateSubmittedBody title content version now)⟩]
    ∧ (Legacy.updateSubmittedBody title content version now).version.number = version + 1
    ∧ (Legacy.updateSubmittedBody title content version now).version.message =
        "Updated via MCP at " ++ now
    ∧ (Legacy.updateSubmittedBody title content version now).title = title
    ∧ (Legacy.updateSubmittedBody title content version now).body.storage.value = content
    ∧ Legacy.updateConfluencePageRequests pageId title content version now p =
        Legacy.updateConfluencePageRequests pageId title content version now q :=
  ⟨rfl, rfl, rfl, rfl, rfl, rfl⟩

/-- C2: `searchContent` transmits the caller query verbatim as the `cql`
parameter when it contains a type filter clause, and otherwise wraps it
as a free-text match; in particular the structured query on page type
passes unmodified and a plain-word query is wrapped. -/
theorem C2_searchContent_query (q1 q2 : String) (limit start : Nat)
    (h1 : strContains q1 "type =" = true) (h2 : strContains q2 "type =" = false) :
    (Legacy.searchConfluenceContentRequest q1 limit start).params.lookup "cql" =
      some (.str q1)
    ∧ (Legacy.searchConfluenceContentRequest q2 limit start).params.lookup "cql" =
      some (.str ("text ~ \"" ++ q2 ++ "\""))
    ∧ Legacy.searchCql "type = \"page\"" = "type = \"page\""
    ∧ Legacy.searchCql "budget report" = "text ~ \"budget report\"" := by
  refine ⟨?_, ?_, by decide, by decide⟩
  · simp [Legacy.searchConfluenceContentRequest, Legacy.searchCql, h1, List.lookup]
  · simp [Legacy.searchConfluenceContentRequest, Legacy.searchCql, h2, List.lookup]

/-- C2, witness: the two example queries of the claim. -/
theorem C2_searchContent_query_witness :
    (Legacy.searchConfluenceContentRequest "type = \"page\"" 25 0).params.lookup "cql" =
      some (.str "type = \"page\"")
    ∧ (Legacy.searchConfluenceContentRequest "budget report" 25 0).params.lookup "cql" =
      some (.str ("text ~ \"" ++ "budget report" ++ "\""))
    ∧ Legacy.searchCql "type = \"page\"" = "type = \"page\""
    ∧ Legacy.searchCql "budget report" = "text ~ \"budget report\"" :=
  C2_searchContent_query "type = \"page\"" "budget report" 25 0 (by decide) (by decide)

/-- C3: `getPageContent` raises `EMPTY_CONTENT` whenever the fetched page
has a missing or empty storage body (so it never returns an empty success
value), `PAGE_NOT_FOUND` on HTTP 404, and `INSUFFICIENT_PERMISSIONS` on
HTTP 403. -/
theorem C3_getPageContent_errors (page : RawPageData)
    (h : (page.body.bind RawBody.storage).bind RawStorage.value = none ∨
         (page.body.bind RawBody.storage).bind RawStorage.value = some "")
    (d : Option String) (m : String) :
    Legacy.getPageContent (.ok page) =
      .error (.confluence ⟨"Page content is empty or not accessible", .EMPTY_CONTENT⟩)
    ∧ Legacy.getPageContent (.error (.axiosErr (some 404) d m)) =
      .error (.confluence ⟨"Page content not found", .PAGE_NOT_FOUND⟩)
    ∧ Legacy.getPageContent (.error (.axiosErr (some 403) d m)) =
      .error (.confluence ⟨"Insufficient permissions to access page content",
        .INSUFFICIENT_PERMISSIONS⟩) := by
  refine ⟨?_, ?_, ?_⟩
  · rcases h with h | h <;> simp [Legacy.getPageContent, h]
  · simp [Legacy.getPageContent]
  · simp [Legacy.getPageContent]

/-- C3, witness: a page with no body at all, and concrete 404 and 403
failures. -/
theorem C3_getPageContent_errors_witness :
    Legacy.getPageContent (.ok ⟨"1", "T", "current", none, none, none, none, none⟩) =
      .error (.confluence ⟨"Page content is empty or not accessible", .EMPTY_CONTENT⟩)
    ∧ Legacy.getPageContent (.error (.axiosErr (some 404) none "boom")) =
      .error (.confluence ⟨"Page content not found", .PAGE_NOT_FOUND⟩)
    ∧ Legacy.getPageContent (.error (.axiosErr (some 403) none "boom")) =
      .error (.confluence ⟨"Insufficient permissions to access page content",
        .INSUFFICIENT_PERMISSIONS⟩) :=
  C3_getPageContent_errors ⟨"1", "T", "current", none, none, none, none, none⟩
    (Or.inl rfl) none "boom"

/-- C4: `removeLabel` disambiguates a 404 by the error payload text: a
payload message mentioning the label raises `LABEL_NOT_FOUND`, any other
payload (including a missing one) raises `PAGE_NOT_FOUND`, and a 404
never produces a generic error — for every payload the result is one of
those two domain errors. -/
theorem C4_removeLabel_disambiguation (label m : String) (msg msg2 d : Option String)
    (h1 : jsIncludesOpt msg "label" = true) (h2 : jsIncludesOpt msg2 "label" = false) :
    Legacy.removeConfluenceLabel label (.error (.axiosErr (some 404) msg m)) =
      .error (.confluence ⟨"Label \"" ++ label ++ "\" not found on page", .LABEL_NOT_FOUND⟩)
    ∧ Legacy.removeConfluenceLabel label (.error (.axiosErr (some 404) msg2 m)) =
      .error (.confluence ⟨"Page not found", .PAGE_NOT_FOUND⟩)
    ∧ (Legacy.removeConfluenceLabel label (.error (.axiosErr (some 404) d m)) =
        .error (.confluence ⟨"Label \"" ++ label ++ "\" not found on page", .LABEL_NOT_FOUND⟩)
      ∨ Legacy.removeConfluenceLabel label (.error (.axiosErr (some 404) d m)) =
        .error (.confluence ⟨"Page not found", .PAGE_NOT_FOUND⟩)) := by
  refine ⟨?_, ?_, ?_⟩
  · simp [Legacy.removeConfluenceLabel, h1]
  · simp [Legacy.removeConfluenceLabel, h2]
  · by_cases hd : jsIncludesOpt d "label" = true
    · exact Or.inl (by simp [Legacy.removeConfluenceLabel, hd])
    · exact Or.inr (by simp [Legacy.removeConfluenceLabel, hd])

/-- C4, witness: a 404 whose payload reports a missing label, and a 404
whose payload reports a missing page. -/
theorem C4_removeLabel_disambiguation_witness :
    Legacy.removeConfluenceLabel "draft" (.error (.axiosErr (some 404)
        (some "No label with name draft found") "Request failed with status code 404")) =
      .error (.confluence ⟨"Label \"" ++ "draft" ++ "\" not found on page", .LABEL_NOT_FOUND⟩)
    ∧ Legacy.removeConfluenceLabel "draft" (.error (.axiosErr (some 404)
        (some "No content found with id 123") "Request failed with status code 404")) =
      .error (.confluence ⟨"Page not found", .PAGE_NOT_FOUND⟩)
    ∧ (Legacy.removeConfluenceLabel "draft" (.error (.axiosErr (some 404) none
        "Request failed with status code 404")) =
        .error (.confluence ⟨"Label \"" ++ "draft" ++ "\" not found on page", .LABEL_NOT_FOUND⟩)
      ∨ Legacy.removeConfluenceLabel "draft" (.error (.axiosErr (some 404) none
        "Request failed with status code 404")) =
        .error (.confluence ⟨"Page not found", .PAGE_NOT_FOUND⟩)) :=
  C4_removeLabel_disambiguation "draft" "Request failed with status code 404"
    (some "No label with name draft found") (some "No content found with id 123") none
    (by decide) (by decide)

/-- C5: `addLabel` submits the label as a one-element array carrying the
implicit global namespace, and an upstream rejection whose payload
message reports that the page already has the label (on a non-404
status — there is no dedicated status code) is raised as `LABEL_EXISTS`,
an error kind distinct from the generic `UNKNOWN`. -/
theorem C5_addLabel_global_and_duplicate (pageId label m : String)
    (st : Option Nat) (dm : Option String)
    (h1 : st ≠ some 404) (h2 : jsIncludesOpt dm "already has the label" = true) :
    Legacy.addConfluenceLabelRequest pageId label =
      ⟨"POST", "/content/" ++ pageId ++ "/label", [],
        .labelArray [{ labelPrefix := "global", name := label }]⟩
    ∧ Legacy.addConfluenceLabelFailure label (.axiosErr st dm m) =
      .confluence ⟨"Label \"" ++ label ++ "\" already exists on this page", .LABEL_EXISTS⟩
    ∧ ErrorCode.LABEL_EXISTS ≠ ErrorCode.UNKNOWN := by
  refine ⟨rfl, ?_, by decide⟩
  simp [Legacy.addConfluenceLabelFailure, h1, h2]

/-- C5, witness: the second `addLabel` of the same label, rejected by the
upstream with a duplicate-label message on status 400. -/
theorem C5_addLabel_global_and_duplicate_witness :
    Legacy.addConfluenceLabelRequest "123" "x" =
      ⟨"POST", "/content/" ++ "123" ++ "/label", [],
        .labelArray [{ labelPrefix := "global", name := "x" }]⟩
    ∧ Legacy.addConfluenceLabelFailure "x"
        (.axiosErr (some 400) (some "Content 123 already has the label x")
          "Request failed with status code 400") =
      .confluence ⟨"Label \"" ++ "x" ++ "\" already exists on this page", .LABEL_EXISTS⟩
    ∧ ErrorCode.LABEL_EXISTS ≠ ErrorCode.UNKNOWN :=
  C5_addLabel_global_and_duplicate "123" "x" "Request failed with status code 400"
    (some 400) (some "Content 123 already has the label x") (by decide) (by decide)

/-- C6: `verifyConnection` issues exactly one low-cost read (list spaces
with limit 1), succeeds silently, and on failure raises a single error
whose message is classified by status: 401 invalid credentials, 403
insufficient authorization, 404 misconfigured address, any status at
least 500 remote unavailable, anything else (including no status at all)
the generic connection failure. -/
theorem C6_verifyConnection_classification (s t : Nat) (d : Option String) (m : String)
    (h5 : 500 ≤ s) (h1 : t ≠ 401) (h3 : t ≠ 403) (h4 : t ≠ 404) (hlt : t < 500) :
    Legacy.verifyApiConnectionRequests = [⟨"GET", "/space", [("limit", .num 1)], .empty⟩]
    ∧ Legacy.verifyApiConnection (.ok ()) = .ok ()
    ∧ Legacy.verifyErrorMessage (.axiosErr (some 401) d m) =
        "Authentication failed: Invalid API token or email"
    ∧ Legacy.verifyErrorMessage (.axiosErr (some 403) d m) =
        "Authorization failed: Insufficient permissions"
    ∧ Legacy.verifyErrorMessage (.axiosErr (some 404) d m) =
        "API endpoint not found: Check Confluence domain"
    ∧ Legacy.verifyErrorMessage (.axiosErr (some s) d m) =
        "Confluence server error: API may be temporarily unavailable"
    ∧ Legacy.verifyErrorMessage (.axiosErr (some t) d m) =
        "Failed to connect to Confluence API"
    ∧ Legacy.verifyErrorMessage (.axiosErr none d m) =
        "Failed to connect to Confluence API"
    ∧ Legacy.verifyApiConnection (.error (.axiosErr (some s) d m)) =
        .error "Confluence server error: API may be temporarily unavailable" := by
  have hs1 : s ≠ 401 := by omega
  have hs3 : s ≠ 403 := by omega
  have hs4 : s ≠ 404 := by omega
  have hns : ¬ (500 ≤ t) := by omega
  refine ⟨rfl, rfl, by simp [Legacy.verifyErrorMessage],
    by simp [Legacy.verifyErrorMessage], by simp [Legacy.verifyErrorMessage],
    ?_, ?_, rfl, ?_⟩
  · simp [Legacy.verifyErrorMessage, hs1, hs3, hs4, h5]
  · simp [Legacy.verifyErrorMessage, h1, h3, h4, hns]
  · simp [Legacy.verifyApiConnection, Legacy.verifyErrorMessage, hs1, hs3, hs4, h5]

/-- C6, witness: a 503 outage and a 418 oddity. -/
theorem C6_verifyConnection_classification_witness :
    Legacy.verifyApiConnectionRequests = [⟨"GET", "/space", [("limit", .num 1)], .empty⟩]
    ∧ Legacy.verifyApiConnection (.ok ()) = .ok ()
    ∧ Legacy.verifyErrorMessage (.axiosErr (some 401) none "boom") =
        "Authentication failed: Invalid API token or email"
    ∧ Legacy.verifyErrorMessage (.axiosErr (some 403) none "boom") =
        "Authorization failed: Insufficient permissions"
    ∧ Legacy.verifyErrorMessage (.axiosErr (some 404) none "boom") =
        "API endpoint not found: Check Confluence domain"
    ∧ Legacy.verifyErrorMessage (.axiosErr (some 503) none "boom") =
        "Confluence server error: API may be temporarily unavailable"
    ∧ Legacy.verifyErrorMessage (.axiosErr (some 418) none "boom") =
        "Failed to connect to Confluence API"
    ∧ Legacy.verifyErrorMessage (.axiosErr none none "boom") =
        "Failed to connect to Confluence API"
    ∧ Legacy.verifyApiConnection (.error (.axiosErr (some 503) none "boom")) =
        .error "Confluence server error: API may be temporarily unavailable" :=
  C6_verifyConnection_classification 503 418 none "boom"
    (by decide) (by decide) (by decide) (by decide) (by decide)

/-- C7: every upstream search row is mapped to an entry whose `url` is
the fully-qualified `https://{domain}/wiki{webui-relative-link}` (empty
relative link when absent) and whose `excerpt` is always a string — the
upstream excerpt when present, the empty string when absent; the
reshaped pagination links consist of exactly a next cursor and the
resolved API base (the `SearchLinks` record has no previous field). -/
theorem C7_searchResult_mapping (domain : String) (row : RawSearchRow)
    (resp : RawSearchResponse) :
    (Legacy.searchRowToEntry domain row).url =
      "https://" ++ domain ++ "/wiki" ++ ((row.links.bind RawLinks.webui).getD "")
    ∧ (Legacy.searchRowToEntry domain row).excerpt = row.excerpt.getD ""
    ∧ (Legacy.searchConfluenceContentResponse domain resp).links =
      { next := resp.links.bind RawLinks.next,
        base := "https://" ++ domain ++ "/rest/api" }
    ∧ (Legacy.searchConfluenceContentResponse domain resp).results =
      (resp.results.getD []).map (Legacy.searchRowToEntry domain) := by
  refine ⟨?_, ?_, rfl, rfl⟩
  · simp [Legacy.searchRowToEntry, jsOr_empty_default]
  · simp [Legacy.searchRowToEntry, jsOr_empty_default]

/-- C8, counterexample. The claim appends the title clause exactly when a
title filter is supplied; a supplied empty-string filter is falsy in the
source and the clause is not appended, so the transmitted query at
`spaceKey = "DOCS"`, `titleFilter = ""` is the bare two-clause query and
not the claimed three-clause one. -/
theorem C8_titleFilter_counterexample :
    (some "" : Option String) ≠ none
    ∧ Legacy.getConfluencePagesCql "DOCS" (some "") =
      "space = \"DOCS\" AND type = \"page\""
    ∧ Legacy.getConfluencePagesCql "DOCS" (some "") ≠
      "space = \"DOCS\" AND type = \"page\" AND title ~ \"\"" := by
  refine ⟨by decide, by decide, by decide⟩

/-- C8, amended: `listPages` builds the structured query from the space
and page-type clauses, appending the title clause exactly when a
non-empty title filter is supplied, sends it to the legacy search
endpoint with space, version and storage-body expansion, and reshapes
the results into Page records. -/
theorem C8_listPages_query (spaceKey t : String) (limit start : Nat)
    (ht : t ≠ "") (now : String) (resp : RawPagesResponse) :
    Legacy.getConfluencePagesClauses spaceKey (some t) =
      ["space = \"" ++ spaceKey ++ "\"", "type = \"page\"",
       "title ~ \"" ++ t ++ "\""]
    ∧ Legacy.getConfluencePagesClauses spaceKey none =
      ["space = \"" ++ spaceKey ++ "\"", "type = \"page\""]
    ∧ Legacy.getConfluencePagesCql spaceKey (some t) =
      String.intercalate " AND " ["space = \"" ++ spaceKey ++ "\"", "type = \"page\"",
        "title ~ \"" ++ t ++ "\""]
    ∧ Legacy.getConfluencePagesRequest spaceKey limit start (some t) =
      ⟨"GET", "/content/search",
        [("cql", .str (Legacy.getConfluencePagesCql spaceKey (some t))),
         ("limit", .num limit), ("start", .num start),
         ("expand", .str "space,version,body.storage")], .empty⟩
    ∧ Legacy.getConfluencePagesCql "ENG" (some "road") =
      "space = \"ENG\" AND type = \"page\" AND title ~ \"road\""
    ∧ Legacy.getConfluencePagesCql "ENG" none =
      "space = \"ENG\" AND type = \"page\""
    ∧ (Legacy.getConfluencePagesResponse now resp).results =
      resp.results.map (Legacy.pagesRowToPage now)
    ∧ (Legacy.getConfluencePagesResponse now resp).size = resp.size := by
  refine ⟨?_, rfl, ?_, rfl, by decide, by decide, rfl, rfl⟩
  · simp [Legacy.getConfluencePagesClauses, ht]
  · simp [Legacy.getConfluencePagesCql, Legacy.getConfluencePagesClauses, ht]

/-- C8, witness: a non-empty title filter. -/
theorem C8_listPages_query_witness :
    Legacy.getConfluencePagesClauses "ENG" (some "road") =
      ["space = \"" ++ "ENG" ++ "\"", "type = \"page\"",
       "title ~ \"" ++ "road" ++ "\""]
    ∧ Legacy.getConfluencePagesClauses "ENG" none =
      ["space = \"" ++ "ENG" ++ "\"", "type = \"page\""]
    ∧ Legacy.getConfluencePagesCql "ENG" (some "road") =
      String.intercalate " AND " ["space = \"" ++ "ENG" ++ "\"", "type = \"page\"",
        "title ~ \"" ++ "road" ++ "\""]
    ∧ Legacy.getConfluencePagesRequest "ENG" 25 0 (some "road") =
      ⟨"GET", "/content/search",
        [("cql", .str (Legacy.getConfluencePagesCql "ENG" (some "road"))),
         ("limit", .num 25), ("start", .num 0),
         ("expand", .str "space,version,body.storage")], .empty⟩
    ∧ Legacy.getConfluencePagesCql "ENG" (some "road") =
      "space = \"ENG\" AND type = \"page\" AND title ~ \"road\""
    ∧ Legacy.getConfluencePagesCql "ENG" none =
      "space = \"ENG\" AND type = \"page\""
    ∧ (Legacy.getConfluencePagesResponse "2024-06-01" ⟨[], none, 0⟩).results =
      ([] : List RawPageData).map (Legacy.pagesRowToPage "2024-06-01")
    ∧ (Legacy.getConfluencePagesResponse "2024-06-01" ⟨[], none, 0⟩).size = 0 :=
  C8_listPages_query "ENG" "road" 25 0 (by decide) "2024-06-01" ⟨[], none, 0⟩

/-- C9, counterexample. The claim says the typed client variant issues
its requests against an api/v2-style base path; its base URL is in fact
the legacy `/rest/api` base, which mentions no v2 segment: at domain
`example.com` the resolved base is `https://example.com/rest/api`. -/
theorem C9_basePath_counterexample :
    Typed.baseURL "example.com" = "https://example.com/rest/api"
    ∧ strContains (Typed.baseURL "example.com") "/api/v2" = false
    ∧ strContains (Typed.fullURL "example.com" (Typed.getSpacesRequest 25 0))
        "/api/v2" = false := by
  refine ⟨by decide, by decide, by decide⟩

/-- C9, amended: the typed client variant issues all of its requests
against the `/rest/api` base path, while addressing resources in the
typed style: `/spaces`, `/pages`, the page body as a sub-resource fetched
with an explicit `body_format` parameter, and labels as a sub-resource
collection, added as a single name-only object and removed by path
segment. -/
theorem C9_typed_requests (domain pageId label spaceId title content query : String)
    (l s v : Nat) (parent : Option String) (now : String) :
    Typed.baseURL domain = "https://" ++ domain ++ "/rest/api"
    ∧ Typed.getSpacesRequest l s =
      ⟨"GET", "/spaces", [("limit", .num l), ("start", .num s)], .empty⟩
    ∧ Typed.getSpaceRequest spaceId = ⟨"GET", "/spaces/" ++ spaceId, [], .empty⟩
    ∧ Typed.getPagesRequest spaceId l s =
      ⟨"GET", "/pages", [("spaceId", .str spaceId), ("limit", .num l),
        ("start", .num s), ("status", .str "current")], .empty⟩
    ∧ Typed.getPageRequest pageId = ⟨"GET", "/pages/" ++ pageId, [], .empty⟩
    ∧ Typed.getPageContentRequest pageId =
      ⟨"GET", "/pages/" ++ pageId ++ "/body", [("body_format", .str "storage")], .empty⟩
    ∧ Typed.createPageRequest spaceId title content parent =
      ⟨"POST", "/pages", [],
        .typedCreate ⟨spaceId, "current", title, ⟨⟨content, "storage"⟩⟩, parent⟩⟩
    ∧ Typed.updatePageRequest pageId title content v now =
      ⟨"PUT", "/pages/" ++ pageId, [],
        .typedUpdate ⟨pageId, "current", title, ⟨⟨content, "storage"⟩⟩,
          ⟨v + 1, "Updated via MCP at " ++ now⟩⟩⟩
    ∧ Typed.searchContentRequest query l s =
      ⟨"GET", "/search", [("cql", .str query), ("limit", .num l),
        ("start", .num s)], .empty⟩
    ∧ Typed.getLabelsRequest pageId =
      ⟨"GET", "/pages/" ++ pageId ++ "/labels", [], .empty⟩
    ∧ Typed.addLabelRequest pageId label =
      ⟨"POST", "/pages/" ++ pageId ++ "/labels", [], .labelSingle label⟩
    ∧ Typed.removeLabelRequest pageId label =
      ⟨"DELETE", "/pages/" ++ pageId ++ "/labels/" ++ label, [], .empty⟩
    ∧ Typed.fullURL domain (Typed.getPageContentRequest pageId) =
      Typed.baseURL domain ++ ("/pages/" ++ pageId ++ "/body") :=
  ⟨rfl, rfl, rfl, rfl, rfl, rfl, rfl, rfl, rfl, rfl, rfl, rfl, rfl⟩

/-- C10: every legacy operation returning Page records fills `authorId`
with the string `unknown` when the upstream response carries no creator
account id, and fills `createdAt` with the current timestamp when it
carries no creation date, across listing, finding by title, getting,
creating and updating. -/
theorem C10_page_defaults (raw : RawPageData) (now : String)
    (h1 : (raw.history.bind RawHistory.createdBy).bind RawCreatedBy.accountId = none)
    (h2 : raw.history.bind RawHistory.createdDate = none) :
    (Legacy.pagesRowToPage now raw).authorId = "unknown"
    ∧ (Legacy.pagesRowToPage now raw).createdAt = now
    ∧ (Legacy.searchPageByNameRowToPage now raw).authorId = "unknown"
    ∧ (Legacy.searchPageByNameRowToPage now raw).createdAt = now
    ∧ (Legacy.getConfluencePageToPage now raw).authorId = "unknown"
    ∧ (Legacy.getConfluencePageToPage now raw).createdAt = now
    ∧ (Legacy.createConfluencePageToPage now raw).authorId = "unknown"
    ∧ (Legacy.createConfluencePageToPage now raw).createdAt = now
    ∧ (Legacy.updateConfluencePageToPage now raw).authorId = "unknown"
    ∧ (Legacy.updateConfluencePageToPage now raw).createdAt = now := by
  simp [Legacy.pagesRowToPage, Legacy.searchPageByNameRowToPage,
    Legacy.getConfluencePageToPage, Legacy.createConfluencePageToPage,
    Legacy.updateConfluencePageToPage, h1, h2, jsOr]

/-- C10, witness: an upstream page with no history object at all. -/
theorem C10_page_defaults_witness :
    (Legacy.pagesRowToPage "2024-06-01T00:00:00Z"
        ⟨"1", "T", "current", none, none, none, none, none⟩).authorId = "unknown"
    ∧ (Legacy.pagesRowToPage "2024-06-01T00:00:00Z"
        ⟨"1", "T", "current", none, none, none, none, none⟩).createdAt =
      "2024-06-01T00:00:00Z"
    ∧ (Legacy.searchPageByNameRowToPage "2024-06-01T00:00:00Z"
        ⟨"1", "T", "current", none, none, none, none, none⟩).authorId = "unknown"
    ∧ (Legacy.searchPageByNameRowToPage "2024-06-01T00:00:00Z"
        ⟨"1", "T", "current", none, none, none, none, none⟩).createdAt =
      "2024-06-01T00:00:00Z"
    ∧ (Legacy.getConfluencePageToPage "2024-06-01T00:00:00Z"
        ⟨"1", "T", "current", none, none, none, none, none⟩).authorId = "unknown"
    ∧ (Legacy.getConfluencePageToPage "2024-06-01T00:00:00Z"
        ⟨"1", "T", "current", none, none, none, none, none⟩).createdAt =
      "2024-06-01T00:00:00Z"
    ∧ (Legacy.createConfluencePageToPage "2024-06-01T00:00:00Z"
        ⟨"1", "T", "current", none, none, none, none, none⟩).authorId = "unknown"
    ∧ (Legacy.createConfluencePageToPage "2024-06-01T00:00:00Z"
        ⟨"1", "T", "current", none, none, none, none, none⟩).createdAt =
      "2024-06-01T00:00:00Z"
    ∧ (Legacy.updateConfluencePageToPage "2024-06-01T00:00:00Z"
        ⟨"1", "T", "current", none, none, none, none, none⟩).authorId = "unknown"
    ∧ (Legacy.updateConfluencePageToPage "2024-06-01T00:00:00Z"
        ⟨"1", "T", "current", none, none, none, none, none⟩).createdAt =
      "2024-06-01T00:00:00Z" :=
  C10_page_defaults ⟨"1", "T", "current", none, none, none, none, none⟩
    "2024-06-01T00:00:00Z" rfl rfl
